import Mathlib

/-!
Shallow embedding of `src/clients/cli/src/consts.rs` from `fengsecao/nexus-cli`.

The file has two parts:
* the `cli_consts` module of configuration constants, embedded as Lean
  constants (with `std::time::Duration` embedded as a seconds/nanoseconds
  record, as in Rust);
* the global 429 retry-timeout cell (`RETRY_TIMEOUT`, `set_retry_timeout`,
  `get_retry_timeout`), embedded as explicit state passing.  The random draw
  `rng.gen_range(0..=variation_range * 2)` is a parameter `r`, assumed to lie
  in that inclusive range.  The expression `(base_timeout as f64 * 0.1) as u64`
  is embedded exactly: IEEE-754 binary64 round-to-nearest-even arithmetic is
  carried out on integers scaled by powers of two (every value that occurs is
  a dyadic rational well inside the normal range of binary64), and the final
  `as u64` cast truncates toward zero and saturates, as in Rust.  `i64`
  arithmetic wraps (release-mode semantics).
-/

set_option autoImplicit false
set_option maxRecDepth 2000

namespace NexusCli

/-- Rust `std::time::Duration`: whole seconds plus a nanosecond remainder. -/
structure Duration where
  secs : Nat
  nanos : Nat
  deriving DecidableEq, Repr

namespace Duration

/-- Rust `Duration::from_millis`. -/
def from_millis (ms : Nat) : Duration :=
  { secs := ms / 1000, nanos := (ms % 1000) * 1000000 }

/-- Rust `Duration::from_secs`. -/
def from_secs (s : Nat) : Duration :=
  { secs := s, nanos := 0 }

/-- Total duration in nanoseconds, used to compare durations. -/
def toNanos (d : Duration) : Nat :=
  d.secs * 1000000000 + d.nanos

end Duration

namespace cli_consts

/-- The maximum number of events to keep in the activity logs. -/
def MAX_ACTIVITY_LOGS : Nat := 100

/-- Maximum number of event buffer size for worker threads. -/
def EVENT_QUEUE_SIZE : Nat := 100

/-- Subprocess error code likely indicating an OOM error. -/
def SUBPROCESS_SUSPECTED_OOM_CODE : Int := 137

/-- Subprocess error code indicating an internal failure of the proving. -/
def SUBPROCESS_INTERNAL_ERROR_CODE : Int := 3

/-- Reasonable generic projection task memory requirement (4 GiB). -/
def PROJECTED_MEMORY_REQUIREMENT : Nat := 4294967296

/-- Modelled from the spec: the pending-task queue capacity is consumed by the
external pipeline and is not defined in `src/clients/cli/src/consts.rs`; the
spec's QueueCapacities section fixes the task queue bound at 100 entries. -/
def TASK_QUEUE_SIZE : Nat := 100

/-- Modelled from the spec: the pending-result queue capacity is consumed by
the external pipeline and is not defined in `src/clients/cli/src/consts.rs`;
the spec's QueueCapacities section fixes the result queue bound at 100. -/
def RESULT_QUEUE_SIZE : Nat := 100

/-- Modelled from the spec: the low-water-mark threshold that triggers
replenishment is not defined in `src/clients/cli/src/consts.rs`; the spec's
QueueCapacities section fixes it at 1. -/
def LOW_WATER_MARK : Nat := 1

/-- Modelled from the spec: the duplicate-suppression cache capacity
`MAX_COMPLETED_TASKS` is not defined in `src/clients/cli/src/consts.rs`; the
spec derives it as 5 × the task queue capacity. -/
def MAX_COMPLETED_TASKS : Nat := 5 * TASK_QUEUE_SIZE

namespace difficulty

/-- Time threshold for auto-promotion (seconds); 7 minutes. -/
def PROMOTION_THRESHOLD_SECS : Nat := 7 * 60

end difficulty

namespace task_fetching

/-- Initial delay before retrying failed task fetch (milliseconds). -/
def INITIAL_BACKOFF_MS : Nat := 120000

/-- Maximum number of retry attempts for task fetching. -/
def MAX_RETRIES : Nat := 2

/-- Minimum interval between task fetch requests (milliseconds). -/
def RATE_LIMIT_INTERVAL_MS : Nat := 120000

/-- Helper function to get initial backoff duration. -/
def initial_backoff : Duration := Duration.from_millis INITIAL_BACKOFF_MS

/-- Helper function to get rate limit interval. -/
def rate_limit_interval : Duration := Duration.from_millis RATE_LIMIT_INTERVAL_MS

end task_fetching

namespace proof_submission

/-- Initial delay before retrying failed proof submission (milliseconds). -/
def INITIAL_BACKOFF_MS : Nat := 1000

/-- Maximum number of retry attempts for proof submission. -/
def MAX_RETRIES : Nat := 5

/-- Minimum interval between submission requests (milliseconds). -/
def RATE_LIMIT_INTERVAL_MS : Nat := 100

/-- Helper function to get initial backoff duration. -/
def initial_backoff : Duration := Duration.from_millis INITIAL_BACKOFF_MS

/-- Helper function to get rate limit interval. -/
def rate_limit_interval : Duration := Duration.from_millis RATE_LIMIT_INTERVAL_MS

end proof_submission

namespace rate_limiting

/-- Maximum requests per time window for task fetching. -/
def TASK_FETCH_MAX_REQUESTS_PER_WINDOW : Nat := 60

/-- Time window duration for task fetching rate limiting (milliseconds). -/
def TASK_FETCH_WINDOW_MS : Nat := 60000

/-- Maximum requests per time window for proof submission. -/
def SUBMISSION_MAX_REQUESTS_PER_WINDOW : Nat := 100

/-- Time window duration for proof submission rate limiting (milliseconds). -/
def SUBMISSION_WINDOW_MS : Nat := 60000

/-- Helper function to get task fetch time window. -/
def task_fetch_window : Duration := Duration.from_millis TASK_FETCH_WINDOW_MS

/-- Helper function to get submission time window. -/
def submission_window : Duration := Duration.from_millis SUBMISSION_WINDOW_MS

/-- Extra delay to add on top of server-provided retry delays (seconds). -/
def EXTRA_RETRY_DELAY_SECS : Nat := 10

/-- Helper function to get the extra retry delay. -/
def extra_retry_delay : Duration := Duration.from_secs EXTRA_RETRY_DELAY_SECS

end rate_limiting

end cli_consts

/-! ## IEEE-754 binary64 arithmetic on scaled integers

Every floating-point value reached by `get_retry_timeout` is a nonnegative
dyadic rational far inside the normal binary64 range, so a value is
represented by the natural number `x * 2^s` at a scale `s` fixed by the
context.  Rounding a positive real to binary64 keeps its top 53 binary
digits, rounding to nearest with ties to even; on a scaled integer this is
performed by `rnd53`, which is scale-invariant. -/

/-- Floor of the base-2 logarithm, fuel-driven so it reduces by `decide`.
Correct whenever `n < 2 ^ fuel`. -/
def natLog2F : Nat → Nat → Nat
  | 0, _ => 0
  | fuel + 1, n => if 2 ≤ n then natLog2F fuel (n / 2) + 1 else 0

/-- Round `n / 2 ^ sh` to the nearest integer, ties to even (`sh ≥ 1`). -/
def roundHalfEven (n sh : Nat) : Nat :=
  let q := n / 2 ^ sh
  let r := n % 2 ^ sh
  if r < 2 ^ (sh - 1) then q
  else if 2 ^ (sh - 1) < r then q + 1
  else if q % 2 = 0 then q else q + 1

/-- Round a scaled value to 53 significant binary digits, nearest/ties-even:
the binary64 rounding of `n / 2 ^ s`, returned at the same scale `s` (the
operation does not depend on `s`).  Correct for `n < 2 ^ 400`. -/
def rnd53 (n : Nat) : Nat :=
  let E := natLog2F 400 n
  if E ≤ 52 then n
  else roundHalfEven n (E - 52) * 2 ^ (E - 52)

/-- The binary64 value of the literal `0.1`, scaled by `2 ^ 55`:
`0.1_f64 = 3602879701896397 / 2 ^ 55`. -/
def f64_tenth_scaled : Nat := 3602879701896397

/-- Wrap an integer into the `i64` range (Rust release-mode semantics). -/
def i64_wrap (x : Int) : Int := (x + 2 ^ 63) % 2 ^ 64 - 2 ^ 63

/-- The `u64 as i64` cast. -/
def u64_as_i64 (b : Nat) : Int := i64_wrap b

/-- The `i64 as u64` cast. -/
def i64_as_u64 (x : Int) : Nat := (x % 2 ^ 64).toNat

/-- Value of `i64::MAX`. -/
def I64_MAX : Nat := 2 ^ 63 - 1

/-- Value of `u64::MAX`. -/
def U64_MAX : Nat := 2 ^ 64 - 1

/-- The jitter range `(base_timeout as f64 * 0.1) as u64` of
`get_retry_timeout`, embedded exactly:
`base_timeout as f64` rounds the integer to binary64 (`rnd53`), the product
with `0.1_f64` is formed exactly at scale `2 ^ 55` and rounded to binary64
(`rnd53` again), and `as u64` truncates toward zero, saturating at
`u64::MAX`. -/
def variation_range (base_timeout : Nat) : Nat :=
  let prod := rnd53 (rnd53 base_timeout * f64_tenth_scaled)
  let truncated := prod / 2 ^ 55
  if 2 ^ 64 ≤ truncated then U64_MAX else truncated

/-- The process-wide state: the single `AtomicU64` cell `RETRY_TIMEOUT`. -/
structure RetryState where
  RETRY_TIMEOUT : Nat
  deriving DecidableEq, Repr

/-- Default 429-retry timeout in seconds: `DEFAULT_RETRY_TIMEOUT = 30`. -/
def DEFAULT_RETRY_TIMEOUT : Nat := 30

/-- The static initializer `AtomicU64::new(DEFAULT_RETRY_TIMEOUT)`: the state
at process start, before any `set_retry_timeout`. -/
def initialRetryState : RetryState := { RETRY_TIMEOUT := DEFAULT_RETRY_TIMEOUT }

/-- Embedding of `set_retry_timeout`: store `timeout_seconds` into the cell. -/
def set_retry_timeout (_s : RetryState) (timeout_seconds : Nat) : RetryState :=
  { RETRY_TIMEOUT := timeout_seconds }

/-- Embedding of `get_retry_timeout`, parameterized by the random draw
`r = rng.gen_range(0..=variation_range * 2)`.  Returns the produced timeout
together with the (unchanged) state: the function body performs a single
atomic load and no store. -/
def get_retry_timeout (s : RetryState) (r : Nat) : Nat × RetryState :=
  let base_timeout := s.RETRY_TIMEOUT
  if base_timeout ≤ 1 then (1, s)
  else
    let vr := variation_range base_timeout
    if vr = 0 then (base_timeout, s)
    else
      let variation : Int := i64_wrap (u64_as_i64 r - u64_as_i64 vr)
      let result : Int := i64_wrap (u64_as_i64 base_timeout + variation)
      if result < 1 then (1, s) else (i64_as_u64 result, s)

/-- Repeated reads: thread a list of random draws through `get_retry_timeout`,
keeping only the final state. -/
def applyGets : RetryState → List Nat → RetryState
  | s, [] => s
  | s, r :: rs => applyGets (get_retry_timeout s r).2 rs

/-! ## Arithmetic lemmas about the embedding -/

theorem natLog2F_le (fuel : Nat) :
    ∀ n, 1 ≤ n → n < 2 ^ fuel → 2 ^ natLog2F fuel n ≤ n := by
  induction fuel with
  | zero =>
    intro n h1 h2
    have h0 : (2 : Nat) ^ 0 = 1 := rfl
    omega
  | succ fuel ih =>
    intro n h1 h2
    have hp : (2 : Nat) ^ (fuel + 1) = 2 ^ fuel * 2 := pow_succ 2 fuel
    unfold natLog2F
    split
    · next h2n =>
      have h12 : 1 ≤ n / 2 := by omega
      have hn2 : n / 2 < 2 ^ fuel := by omega
      have hrec := ih (n / 2) h12 hn2
      calc 2 ^ (natLog2F fuel (n / 2) + 1)
          = 2 ^ natLog2F fuel (n / 2) * 2 := pow_succ 2 _
        _ ≤ n / 2 * 2 := Nat.mul_le_mul_right 2 hrec
        _ ≤ n := by omega
    · simpa using h1

theorem roundHalfEven_mul_le (n sh : Nat) (hsh : 1 ≤ sh) :
    roundHalfEven n sh * 2 ^ sh ≤ n + 2 ^ (sh - 1) := by
  have hdm := Nat.div_add_mod' n (2 ^ sh)
  have hlt : n % 2 ^ sh < 2 ^ sh := Nat.mod_lt _ (pow_pos (by omega) sh)
  have hp : (2 : Nat) ^ sh = 2 ^ (sh - 1) * 2 := by
    conv_lhs => rw [show sh = sh - 1 + 1 from by omega]
    rw [pow_succ]
  simp only [roundHalfEven]
  split
  · exact Nat.le_trans (Nat.div_mul_le_self n _) (Nat.le_add_right _ _)
  · split
    · rw [Nat.succ_mul]
      generalize n / 2 ^ sh * 2 ^ sh = k at hdm ⊢
      omega
    · split
      · exact Nat.le_trans (Nat.div_mul_le_self n _) (Nat.le_add_right _ _)
      · rw [Nat.succ_mul]
        generalize n / 2 ^ sh * 2 ^ sh = k at hdm ⊢
        omega

theorem rnd53_le (n : Nat) (hn : n < 2 ^ 400) :
    2 ^ 53 * rnd53 n ≤ 2 ^ 53 * n + n := by
  simp only [rnd53]
  split
  · exact Nat.le_add_right _ _
  · next hE =>
    have hn1 : 1 ≤ n := by
      rcases Nat.eq_zero_or_pos n with h0 | h1
      · subst h0
        have h00 : natLog2F 400 0 = 0 := by decide
        omega
      · exact h1
    have hlog := natLog2F_le 400 n hn1 hn
    have h53 : 53 ≤ natLog2F 400 n := by omega
    have hround := roundHalfEven_mul_le n (natLog2F 400 n - 52) (by omega)
    have hsub : natLog2F 400 n - 52 - 1 = natLog2F 400 n - 53 := by omega
    rw [hsub] at hround
    have hpow : (2 : Nat) ^ 53 * 2 ^ (natLog2F 400 n - 53) = 2 ^ natLog2F 400 n := by
      rw [← pow_add]
      congr 1
      omega
    calc 2 ^ 53 * (roundHalfEven n (natLog2F 400 n - 52) * 2 ^ (natLog2F 400 n - 52))
        ≤ 2 ^ 53 * (n + 2 ^ (natLog2F 400 n - 53)) := Nat.mul_le_mul_left _ hround
      _ = 2 ^ 53 * n + 2 ^ 53 * 2 ^ (natLog2F 400 n - 53) := Nat.mul_add _ _ _
      _ = 2 ^ 53 * n + 2 ^ natLog2F 400 n := by rw [hpow]
      _ ≤ 2 ^ 53 * n + n := by omega

theorem variation_range_lt (b : Nat) (hb : 2 ≤ b) (hb64 : b < 2 ^ 64) :
    variation_range b < b := by
  have hb400 : b < 2 ^ 400 := by omega
  have h1 : 2 ^ 53 * rnd53 b ≤ 2 ^ 53 * b + b := rnd53_le b hb400
  have hBb : rnd53 b ≤ 2 ^ 53 * b + b :=
    Nat.le_trans (Nat.le_mul_of_pos_left _ (by omega)) h1
  have hBlt : rnd53 b < 2 ^ 118 := by omega
  have hPraw400 : rnd53 b * f64_tenth_scaled < 2 ^ 400 := by
    simp only [f64_tenth_scaled]
    omega
  have h2 := rnd53_le (rnd53 b * f64_tenth_scaled) hPraw400
  have h2' : 2 ^ 53 * rnd53 (rnd53 b * f64_tenth_scaled)
      ≤ (2 ^ 53 + 1) * (rnd53 b * f64_tenth_scaled) := by
    calc 2 ^ 53 * rnd53 (rnd53 b * f64_tenth_scaled)
        ≤ 2 ^ 53 * (rnd53 b * f64_tenth_scaled) + rnd53 b * f64_tenth_scaled := h2
      _ = (2 ^ 53 + 1) * (rnd53 b * f64_tenth_scaled) := by ring
  have h3 : rnd53 (rnd53 b * f64_tenth_scaled) / 2 ^ 55 * 2 ^ 55
      ≤ rnd53 (rnd53 b * f64_tenth_scaled) := Nat.div_mul_le_self _ _
  have key : rnd53 (rnd53 b * f64_tenth_scaled) / 2 ^ 55 * 2 ^ 161
      ≤ (2 ^ 53 + 1) ^ 2 * f64_tenth_scaled * b := by
    calc rnd53 (rnd53 b * f64_tenth_scaled) / 2 ^ 55 * 2 ^ 161
        = rnd53 (rnd53 b * f64_tenth_scaled) / 2 ^ 55 * 2 ^ 55 * 2 ^ 106 := by ring
      _ ≤ rnd53 (rnd53 b * f64_tenth_scaled) * 2 ^ 106 := Nat.mul_le_mul_right _ h3
      _ = 2 ^ 53 * rnd53 (rnd53 b * f64_tenth_scaled) * 2 ^ 53 := by ring
      _ ≤ (2 ^ 53 + 1) * (rnd53 b * f64_tenth_scaled) * 2 ^ 53 :=
          Nat.mul_le_mul_right _ h2'
      _ = (2 ^ 53 + 1) * f64_tenth_scaled * (2 ^ 53 * rnd53 b) := by ring
      _ ≤ (2 ^ 53 + 1) * f64_tenth_scaled * (2 ^ 53 * b + b) :=
          Nat.mul_le_mul_left _ h1
      _ = (2 ^ 53 + 1) ^ 2 * f64_tenth_scaled * b := by ring
  have htrunc : rnd53 (rnd53 b * f64_tenth_scaled) / 2 ^ 55 < b := by
    rcases Nat.lt_or_ge (rnd53 (rnd53 b * f64_tenth_scaled) / 2 ^ 55) b with h | h
    · exact h
    · exfalso
      have hbig : b * 2 ^ 161 ≤ (2 ^ 53 + 1) ^ 2 * f64_tenth_scaled * b :=
        Nat.le_trans (Nat.mul_le_mul_right _ h) key
      have hT : (2 ^ 53 + 1) ^ 2 * f64_tenth_scaled < 2 ^ 161 := by decide
      have hb0 : 0 < b := by omega
      have hfinal : 2 ^ 161 ≤ (2 ^ 53 + 1) ^ 2 * f64_tenth_scaled :=
        Nat.le_of_mul_le_mul_left
          (by calc b * 2 ^ 161
                ≤ (2 ^ 53 + 1) ^ 2 * f64_tenth_scaled * b := hbig
              _ = b * ((2 ^ 53 + 1) ^ 2 * f64_tenth_scaled) := by ring) hb0
      omega
  simp only [variation_range]
  split
  · next hsat => exfalso; omega
  · exact htrunc

theorem i64_wrap_eq_self (x : Int) (h1 : -(2 ^ 63) ≤ x) (h2 : x < 2 ^ 63) :
    i64_wrap x = x := by
  unfold i64_wrap
  omega

theorem i64_wrap_bounds (x : Int) :
    -(2 ^ 63) ≤ i64_wrap x ∧ i64_wrap x < 2 ^ 63 := by
  unfold i64_wrap
  constructor <;> omega

theorem u64_as_i64_eq (b : Nat) (h : b < 2 ^ 63) : u64_as_i64 b = (b : Int) := by
  unfold u64_as_i64
  apply i64_wrap_eq_self <;> omega

theorem i64_as_u64_wrap_pos (x : Int) (h : ¬ i64_wrap x < 1) :
    1 ≤ i64_as_u64 (i64_wrap x) := by
  have hb := i64_wrap_bounds x
  unfold i64_as_u64
  omega

/-- Characterization of `get_retry_timeout` on a base of at least 2 whose
computed jitter range keeps `base + range` within `i64::MAX`: the returned
value is exactly the base plus the signed drawn offset, and the final clamp
is not applied. -/
theorem get_retry_timeout_spec (s : RetryState) (r : Nat)
    (hb : 2 ≤ s.RETRY_TIMEOUT)
    (hno : s.RETRY_TIMEOUT + variation_range s.RETRY_TIMEOUT ≤ I64_MAX)
    (hr : r ≤ 2 * variation_range s.RETRY_TIMEOUT) :
    (get_retry_timeout s r).1
        = s.RETRY_TIMEOUT + r - variation_range s.RETRY_TIMEOUT ∧
      1 ≤ s.RETRY_TIMEOUT + r - variation_range s.RETRY_TIMEOUT := by
  have hmax : I64_MAX = 2 ^ 63 - 1 := rfl
  have hb64 : s.RETRY_TIMEOUT < 2 ^ 64 := by omega
  have hvlt : variation_range s.RETRY_TIMEOUT < s.RETRY_TIMEOUT :=
    variation_range_lt _ hb hb64
  rcases Nat.eq_zero_or_pos (variation_range s.RETRY_TIMEOUT) with hv0 | hvpos
  · have hr0 : r = 0 := by omega
    subst hr0
    simp only [get_retry_timeout]
    rw [if_neg (by omega), if_pos hv0]
    exact ⟨by omega, by omega⟩
  · have hvlt63 : variation_range s.RETRY_TIMEOUT < 2 ^ 63 := by omega
    have hr63 : r < 2 ^ 63 := by omega
    have hb63 : s.RETRY_TIMEOUT < 2 ^ 63 := by omega
    have hur : u64_as_i64 r = (r : Int) := u64_as_i64_eq r hr63
    have huv : u64_as_i64 (variation_range s.RETRY_TIMEOUT)
        = (variation_range s.RETRY_TIMEOUT : Int) := u64_as_i64_eq _ hvlt63
    have hub : u64_as_i64 s.RETRY_TIMEOUT = (s.RETRY_TIMEOUT : Int) :=
      u64_as_i64_eq _ hb63
    have hvar : i64_wrap ((r : Int) - (variation_range s.RETRY_TIMEOUT : Int))
        = (r : Int) - (variation_range s.RETRY_TIMEOUT : Int) := by
      apply i64_wrap_eq_self <;> omega
    have hres : i64_wrap ((s.RETRY_TIMEOUT : Int)
          + ((r : Int) - (variation_range s.RETRY_TIMEOUT : Int)))
        = (s.RETRY_TIMEOUT : Int)
          + ((r : Int) - (variation_range s.RETRY_TIMEOUT : Int)) := by
      apply i64_wrap_eq_self <;> omega
    simp only [get_retry_timeout]
    rw [if_neg (by omega), if_neg (by omega), hur, huv, hub, hvar, hres,
      if_neg (by omega)]
    refine ⟨?_, by omega⟩
    show i64_as_u64 ((s.RETRY_TIMEOUT : Int)
        + ((r : Int) - (variation_range s.RETRY_TIMEOUT : Int))) = _
    unfold i64_as_u64
    omega

/-- Reading the timeout performs no store: the state is returned unchanged. -/
theorem get_retry_timeout_preserves (s : RetryState) (r : Nat) :
    (get_retry_timeout s r).2 = s := by
  simp only [get_retry_timeout]
  split
  · rfl
  · split
    · rfl
    · split <;> rfl

theorem applyGets_id (rs : List Nat) (s : RetryState) : applyGets s rs = s := by
  induction rs generalizing s with
  | nil => rfl
  | cons a t ih =>
    unfold applyGets
    rw [get_retry_timeout_preserves]
    exact ih s

/-! ## Claim theorems -/

/-- C1 counterexample: the claimed interval `[max(1, b - floor(0.1*b)), b + floor(0.1*b)]`
is violated at base `b = 6755399441055749`.  There, `floor(0.1*b) = 675539944105574`
but the computed jitter range `(b as f64 * 0.1) as u64` is one larger (the
binary64 product rounds up past the integer boundary), so the maximal draw
`r = 2 * range` produces `b + floor(0.1*b) + 1`, strictly above the claimed
upper end. -/
theorem C1_counterexample :
    2 ≤ 6755399441055749 ∧
      1351079888211150 ≤ 2 * variation_range 6755399441055749 ∧
      6755399441055749 + 6755399441055749 / 10 <
        (get_retry_timeout (set_retry_timeout initialRetryState 6755399441055749)
          1351079888211150).1 := by
  refine ⟨by omega, by decide, by decide⟩

/-- C1 (amended): for every base `b ≥ 2` whose computed jitter range
`range = (b as f64 * 0.1) as u64` satisfies `b + range ≤ i64::MAX`, after
`set_retry_timeout(b)` every call to `get_retry_timeout`, for every possible
random draw, returns a value within the closed interval
`[max(1, b - range), b + range]`. -/
theorem C1_within_computed_jitter (st : RetryState) (b r : Nat)
    (hb : 2 ≤ b) (hno : b + variation_range b ≤ I64_MAX)
    (hr : r ≤ 2 * variation_range b) :
    max 1 (b - variation_range b) ≤ (get_retry_timeout (set_retry_timeout st b) r).1 ∧
      (get_retry_timeout (set_retry_timeout st b) r).1 ≤ b + variation_range b := by
  have hs : (set_retry_timeout st b).RETRY_TIMEOUT = b := rfl
  have h := get_retry_timeout_spec (set_retry_timeout st b) r hb hno hr
  rcases h with ⟨h1, h2⟩
  rw [hs] at h1 h2
  rw [h1]
  constructor <;> omega

/-- Witness for C1 (amended) at base 30 and maximal draw 6: the returned
value 33 lies within `[27, 33]`. -/
theorem C1_within_computed_jitter_witness :
    2 ≤ 30 ∧ 30 + variation_range 30 ≤ I64_MAX ∧ 6 ≤ 2 * variation_range 30 ∧
      (max 1 (30 - variation_range 30)
          ≤ (get_retry_timeout (set_retry_timeout initialRetryState 30) 6).1 ∧
        (get_retry_timeout (set_retry_timeout initialRetryState 30) 6).1
          ≤ 30 + variation_range 30) :=
  ⟨by omega, by decide, by decide,
    C1_within_computed_jitter initialRetryState 30 6 (by omega) (by decide) (by decide)⟩

/-- C2: for every stored base value and every random draw, `get_retry_timeout`
returns at least 1; in particular after `set_retry_timeout(0)` or
`set_retry_timeout(1)` it always returns exactly 1. -/
theorem C2_result_at_least_one (st : RetryState) (r r0 r1 : Nat) :
    1 ≤ (get_retry_timeout st r).1 ∧
      (get_retry_timeout (set_retry_timeout st 0) r0).1 = 1 ∧
      (get_retry_timeout (set_retry_timeout st 1) r1).1 = 1 := by
  refine ⟨?_, rfl, rfl⟩
  simp only [get_retry_timeout]
  split
  · exact Nat.le_refl 1
  · next h1 =>
    split
    · show 1 ≤ st.RETRY_TIMEOUT
      omega
    · next h2 =>
      split
      · exact Nat.le_refl 1
      · next h3 =>
        simp only [i64_as_u64, i64_wrap, u64_as_i64] at h3 ⊢
        omega

/-- C3: `set_retry_timeout(s)` stores exactly `s`, and `get_retry_timeout`
never writes the stored value: after `set_retry_timeout(s)`, any number of
reads leaves the stored base equal to `s`; jitter affects only the returned
value. -/
theorem C3_stored_value_unjittered (st : RetryState) (s r : Nat) (rs : List Nat) :
    (set_retry_timeout st s).RETRY_TIMEOUT = s ∧
      (get_retry_timeout st r).2 = st ∧
      (applyGets (set_retry_timeout st s) rs).RETRY_TIMEOUT = s :=
  ⟨rfl, get_retry_timeout_preserves st r, by rw [applyGets_id]; rfl⟩

/-- C4: after `set_retry_timeout(5)` the computed jitter range is zero
(`(5.0 * 0.1) as u64 = 0`), so every call to `get_retry_timeout`, for every
random draw, returns exactly 5. -/
theorem C4_base_five_unchanged (st : RetryState) (r : Nat) :
    (get_retry_timeout (set_retry_timeout st 5) r).1 = 5 := by
  have hvr : variation_range 5 = 0 := by decide
  simp only [get_retry_timeout, set_retry_timeout]
  rw [if_neg (by omega), if_pos hvr]

/-- C5: the task-fetch backoff instance has an initial delay of 120 seconds
and at most 2 retries, the proof-submission instance an initial delay of
1 second and at most 5 retries, and the submission initial delay is strictly
smaller than the fetch initial delay. -/
theorem C5_backoff_instances :
    cli_consts.task_fetching.initial_backoff = Duration.from_secs 120 ∧
      cli_consts.task_fetching.MAX_RETRIES = 2 ∧
      cli_consts.proof_submission.initial_backoff = Duration.from_secs 1 ∧
      cli_consts.proof_submission.MAX_RETRIES = 5 ∧
      cli_consts.proof_submission.initial_backoff.toNanos
        < cli_consts.task_fetching.initial_backoff.toNanos := by
  refine ⟨rfl, rfl, rfl, rfl, by decide⟩

/-- C6: the task-fetch rate limiter allows 60 requests per 60-second window
and the proof-submission rate limiter allows 100 requests per 60-second
window. -/
theorem C6_rate_limiter_instances :
    cli_consts.rate_limiting.TASK_FETCH_MAX_REQUESTS_PER_WINDOW = 60 ∧
      cli_consts.rate_limiting.task_fetch_window = Duration.from_secs 60 ∧
      cli_consts.rate_limiting.SUBMISSION_MAX_REQUESTS_PER_WINDOW = 100 ∧
      cli_consts.rate_limiting.submission_window = Duration.from_secs 60 := by
  refine ⟨rfl, rfl, rfl, rfl⟩

/-- C7: the configuration defines queue capacities of 100 each for the task,
event and result queues, a low-water-mark of 1, and a duplicate-cache
capacity `MAX_COMPLETED_TASKS` equal to 5 times the task queue size (the
task/result queue sizes, low-water mark and `MAX_COMPLETED_TASKS` are
modelled from the spec; `EVENT_QUEUE_SIZE` comes from the source). -/
theorem C7_queue_capacity_constants :
    cli_consts.TASK_QUEUE_SIZE = 100 ∧ cli_consts.EVENT_QUEUE_SIZE = 100 ∧
      cli_consts.RESULT_QUEUE_SIZE = 100 ∧ cli_consts.LOW_WATER_MARK = 1 ∧
      cli_consts.MAX_COMPLETED_TASKS = 5 * cli_consts.TASK_QUEUE_SIZE :=
  ⟨rfl, rfl, rfl, rfl, rfl⟩

/-- C8: the shared retry timeout is seeded to 30 at process start, so before
any `set_retry_timeout` every `get_retry_timeout`, for every possible draw,
returns a value in `[27, 33]`. -/
theorem C8_default_seed_thirty (r : Nat)
    (hr : r ≤ 2 * variation_range DEFAULT_RETRY_TIMEOUT) :
    initialRetryState.RETRY_TIMEOUT = 30 ∧
      27 ≤ (get_retry_timeout initialRetryState r).1 ∧
      (get_retry_timeout initialRetryState r).1 ≤ 33 := by
  have h := get_retry_timeout_spec initialRetryState r (by decide) (by decide) hr
  rcases h with ⟨h1, h2⟩
  have hbase : initialRetryState.RETRY_TIMEOUT = 30 := rfl
  rw [hbase] at h1 h2
  have hv : variation_range 30 = 3 := by decide
  rw [hv] at h1 h2
  have hv2 : variation_range DEFAULT_RETRY_TIMEOUT = 3 := by decide
  have hrr : r ≤ 6 := by omega
  refine ⟨rfl, ?_, ?_⟩ <;> rw [h1] <;> omega

/-- Witness for C8 at draw 0: the returned value is 27. -/
theorem C8_default_seed_thirty_witness :
    0 ≤ 2 * variation_range DEFAULT_RETRY_TIMEOUT ∧
      (initialRetryState.RETRY_TIMEOUT = 30 ∧
        27 ≤ (get_retry_timeout initialRetryState 0).1 ∧
        (get_retry_timeout initialRetryState 0).1 ≤ 33) :=
  ⟨Nat.zero_le _, C8_default_seed_thirty 0 (Nat.zero_le _)⟩

/-- C9: for every base `b ≥ 2` with `b` plus its computed jitter range not
exceeding `i64::MAX`, and every possible draw, the final clamp branch
(`result < 1`) of `get_retry_timeout` is unreachable: the returned value is
exactly the base plus the signed drawn offset (`r - range`), which is always
at least 1. -/
theorem C9_no_clamp (st : RetryState) (b r : Nat) (hb : 2 ≤ b)
    (hno : b + variation_range b ≤ I64_MAX) (hr : r ≤ 2 * variation_range b) :
    (get_retry_timeout (set_retry_timeout st b) r).1 = b + r - variation_range b ∧
      1 ≤ b + r - variation_range b :=
  get_retry_timeout_spec (set_retry_timeout st b) r hb hno hr

/-- Witness for C9 at base 100 and draw 0: the computed range is 10 and the
returned value is exactly 100 + 0 - 10 = 90, with no clamping. -/
theorem C9_no_clamp_witness :
    2 ≤ 100 ∧ 100 + variation_range 100 ≤ I64_MAX ∧ 0 ≤ 2 * variation_range 100 ∧
      ((get_retry_timeout (set_retry_timeout initialRetryState 100) 0).1
          = 100 + 0 - variation_range 100 ∧
        1 ≤ 100 + 0 - variation_range 100) :=
  ⟨by omega, by decide, Nat.zero_le _,
    C9_no_clamp initialRetryState 100 0 (by omega) (by decide) (Nat.zero_le _)⟩

/-- C10: the minimum interval between task-fetch requests is 120000 ms and
between submission requests is 100 ms, so the submission interval is strictly
smaller than the fetch interval. -/
theorem C10_min_request_intervals :
    cli_consts.task_fetching.RATE_LIMIT_INTERVAL_MS = 120000 ∧
      cli_consts.proof_submission.RATE_LIMIT_INTERVAL_MS = 100 ∧
      cli_consts.proof_submission.RATE_LIMIT_INTERVAL_MS
        < cli_consts.task_fetching.RATE_LIMIT_INTERVAL_MS :=
  ⟨rfl, rfl, by decide⟩

end NexusCli
